import Mathlib

/-!
# Verification of the tambo-github core logic

Shallow embedding of the repository's core decision logic:

* `src/services/resolve-github-intent.ts` — the natural-language intent
  resolver (`resolveGitHubIntent` and its regex-based extractors), plus the
  simpler resolver variant shipped alongside it.
* `src/services/github-api.ts` — the GitHub adapter, in its two variants:
  the PR-filtering / defensive-retry logic of `getRepositoryIssues` and the
  error-message construction of `request`.
* `src/lib/tambo.ts` — the `resolveGitHubIntent` tool dispatcher.

The JavaScript regular expressions are embedded as terms of a small regex
language `RE` together with a backtracking matcher that reproduces the
semantics relevant here: leftmost match, alternatives tried in source order,
greedy quantifiers, `\b` word boundaries, `/i` case-insensitivity.
-/

namespace TamboGitHub

/-! ## Character classes (JS regex semantics, ASCII fragment) -/

/-- JS `\w` (word character), used by `\b`: `[A-Za-z0-9_]`. -/
def isWordChar (c : Char) : Bool :=
  c.isAlpha || c.isDigit || c == '_'

/-- JS `\s` (whitespace): space, tab, newline, CR, FF, VT. -/
def isSpaceChar (c : Char) : Bool :=
  c == ' ' || c == '\t' || c == '\n' || c == '\r' || c == '\x0b' || c == '\x0c'

/-- JS `\d`. -/
def isDigitChar (c : Char) : Bool := c.isDigit

/-- `[a-z0-9-_]` under the `/i` flag. -/
def ownerChar (c : Char) : Bool :=
  c.isAlpha || c.isDigit || c == '-' || c == '_'

/-- `[a-z0-9-_.]` under the `/i` flag. -/
def repoChar (c : Char) : Bool :=
  ownerChar c || c == '.'

/-- `[a-zA-Z#+.]`. -/
def langChar (c : Char) : Bool :=
  c.isAlpha || c == '#' || c == '+' || c == '.'

/-- `[a-z0-9-]` under the `/i` flag. -/
def topicChar (c : Char) : Bool :=
  c.isAlpha || c.isDigit || c == '-'

/-- `[a-z0-9._\-\/]` under the `/i` flag. -/
def branchChar (c : Char) : Bool :=
  c.isAlpha || c.isDigit || c == '.' || c == '_' || c == '-' || c == '/'

/-- JS `.` (no `s` flag): any character except a line terminator. -/
def dotChar (c : Char) : Bool :=
  !(c == '\n' || c == '\r')

/-! ## A small regex language with JS-style backtracking -/

/-- Regex syntax: literals, character classes with a `{lo,hi}` repetition
(`hi = none` meaning unbounded), sequencing, ordered alternation, greedy
option, word boundary, and numbered capture groups. -/
inductive RE where
  | lit (s : List Char)
  | cls (p : Char → Bool) (lo : Nat) (hi : Option Nat)
  | seq (a b : RE)
  | alt (a b : RE)
  | opt (a : RE)
  | wb
  | grp (i : Nat) (a : RE)

/-- Matcher state: the character just before the current position (for `\b`)
and the remaining input. -/
structure MState where
  prev : Option Char
  rest : List Char
deriving Repr

/-- Captured groups: group index paired with the captured characters. -/
abbrev Caps := List (Nat × List Char)

/-- JS `\b`: the two sides of the position disagree on word-char-ness
(out of range counts as non-word). -/
def boundary (a b : Option Char) : Bool :=
  (match a with | some c => isWordChar c | none => false)
    != (match b with | some c => isWordChar c | none => false)

/-- Match a literal, case-insensitively when `ci` is set (JS `/i`). -/
def litMatch (ci : Bool) : List Char → MState → Option MState
  | [], st => some st
  | c :: cs, st =>
    match st.rest with
    | [] => none
    | d :: ds =>
      if (if ci then d.toLower == c.toLower else d == c) then
        litMatch ci cs ⟨some d, ds⟩
      else
        none

/-- States reachable by consuming `0..fuel` successive characters of class
`p`, in increasing order of consumed length. -/
def runStates (p : Char → Bool) : Nat → MState → List MState
  | 0, st => [st]
  | f + 1, st =>
    st :: (match st.rest with
      | [] => []
      | c :: cs => if p c then runStates p f ⟨some c, cs⟩ else [])

/-- Greedy matching of `p{lo,hi}`: candidate states from longest to shortest
consumed run, keeping only lengths `≥ lo`. -/
def classRuns (p : Char → Bool) (lo : Nat) (hi : Option Nat) (st : MState) :
    List MState :=
  let fuel := match hi with | some h => h | none => st.rest.length
  (runStates p fuel st).reverse.filter
    (fun st' => lo + st'.rest.length ≤ st.rest.length)

/-- Backtracking matcher: all ways `re` can match starting at `st`, in JS
priority order (first element = the match JS commits to). Captures record
the consumed text of each group. -/
def mrun (ci : Bool) : RE → MState → Caps → List (MState × Caps)
  | .lit s, st, caps =>
    match litMatch ci s st with
    | some st' => [(st', caps)]
    | none => []
  | .cls p lo hi, st, caps => (classRuns p lo hi st).map (fun st' => (st', caps))
  | .seq a b, st, caps =>
    (mrun ci a st caps).flatMap (fun sc => mrun ci b sc.1 sc.2)
  | .alt a b, st, caps => mrun ci a st caps ++ mrun ci b st caps
  | .opt a, st, caps => mrun ci a st caps ++ [(st, caps)]
  | .wb, st, caps =>
    if boundary st.prev st.rest.head? then [(st, caps)] else []
  | .grp i a, st, caps =>
    (mrun ci a st caps).map
      (fun sc => (sc.1, (i, st.rest.take (st.rest.length - sc.1.rest.length)) :: sc.2))

/-- Leftmost search (JS `String.prototype.match` without the `g` flag):
try each start position left to right; at the first position with a match,
commit to the highest-priority one. Returns the captures. -/
def searchAux (ci : Bool) (re : RE) (prev : Option Char) : List Char → Option Caps
  | [] =>
    match mrun ci re ⟨prev, []⟩ [] with
    | r :: _ => some r.2
    | [] => none
  | c :: cs =>
    match mrun ci re ⟨prev, c :: cs⟩ [] with
    | r :: _ => some r.2
    | [] => searchAux ci re (some c) cs

/-- `text.match(re)`'s captures (`none` when there is no match). -/
def reSearch (ci : Bool) (re : RE) (l : List Char) : Option Caps :=
  searchAux ci re none l

/-- `re.test(text)`. -/
def reTest (ci : Bool) (re : RE) (l : List Char) : Bool :=
  (reSearch ci re l).isSome

/-- Capture of group `i` in a match result. -/
def capGet (caps : Caps) (i : Nat) : Option (List Char) :=
  (caps.find? (fun p => p.1 == i)).map (fun p => p.2)

/-- Ordered alternation of a non-empty list (source order preserved). -/
def alts (a : RE) : List RE → RE
  | [] => a
  | b :: bs => .alt a (alts b bs)

/-- Literal word regex piece. -/
def w (s : String) : RE := .lit s.data

/-- `\s+` -/
def spacesP : RE := .cls isSpaceChar 1 none

/-- `\s*` -/
def spacesS : RE := .cls isSpaceChar 0 none

/-- `s?` in a `/i` regex. -/
def sOptCI : RE := .cls (fun d => d.toLower == 's') 0 (some 1)

/-- `s?` in a case-sensitive regex (applied to lowercased text). -/
def sOpt : RE := .cls (fun d => d == 's') 0 (some 1)

/-- `[:\-]?` -/
def colonDashOpt : RE := .cls (fun d => d == ':' || d == '-') 0 (some 1)

/-- `.*` -/
def dotStar : RE := .cls dotChar 0 none

/-! ## The resolver's regular expressions (`resolve-github-intent.ts`) -/

/-- `/\b(summarize|summary|analyze|overview|describe)\b/i` -/
def summarizeRE : RE :=
  .seq .wb (.seq
    (.grp 1 (alts (w "summarize") [w "summary", w "analyze", w "overview", w "describe"]))
    .wb)

/-- `/\b([a-z0-9-_]+)\/([a-z0-9-_.]+)\b/i` -/
def slashRE : RE :=
  .seq .wb (.seq (.grp 1 (.cls ownerChar 1 none))
    (.seq (w "/") (.seq (.grp 2 (.cls repoChar 1 none)) .wb)))

/-- `/\brepo\s+([a-z0-9-_]+)\/([a-z0-9-_.]+)\b/i` -/
def repoSlashRE : RE :=
  .seq .wb (.seq (w "repo") (.seq spacesP
    (.seq (.grp 1 (.cls ownerChar 1 none))
      (.seq (w "/") (.seq (.grp 2 (.cls repoChar 1 none)) .wb)))))

/-- `/\btamb\s+repo\b/i` -/
def tambRE : RE :=
  .seq .wb (.seq (w "tamb") (.seq spacesP (.seq (w "repo") .wb)))

/-- `/\bissues?\b/` (tested against lowercased text). -/
def issuesLaneRE : RE :=
  .seq .wb (.seq (w "issue") (.seq sOpt .wb))

/-- `/\b(prs?|pull requests?)\b/` (tested against lowercased text). -/
def prsLaneRE : RE :=
  .seq .wb (.seq
    (.grp 1 (.alt (.seq (w "pr") sOpt) (.seq (w "pull request") sOpt)))
    .wb)

/-- `/\bcommits?\b/` (tested against lowercased text). -/
def commitsLaneRE : RE :=
  .seq .wb (.seq (w "commit") (.seq sOpt .wb))

/-- `/\brepos?(?:itories)?\b/` (tested against lowercased text). -/
def reposLaneRE : RE :=
  .seq .wb (.seq (w "repo") (.seq sOpt (.seq (.opt (w "itories")) .wb)))

/-- `/\b(open|opened|closed|close|all|any|merged|resolved)\b/i` -/
def stateRE : RE :=
  .seq .wb (.seq
    (.grp 1 (alts (w "open") [w "opened", w "closed", w "close", w "all",
                              w "any", w "merged", w "resolved"]))
    .wb)

/-- `/\b(top|first|latest|new|recent)\s+(\d{1,3})\b/i` -/
def countRE1 : RE :=
  .seq .wb (.seq
    (.grp 1 (alts (w "top") [w "first", w "latest", w "new", w "recent"]))
    (.seq spacesP (.seq (.grp 2 (.cls isDigitChar 1 (some 3))) .wb)))

/-- `(repos?|repositories|issues|prs|pull requests?)` -/
def countNounAlt : RE :=
  alts (.seq (w "repo") sOptCI)
    [w "repositories", w "issues", w "prs", .seq (w "pull request") sOptCI]

/-- `/\b(\d{1,3})\s+(repos?|repositories|issues|prs|pull requests?)\b/i` -/
def countRE2 : RE :=
  .seq .wb (.seq (.grp 1 (.cls isDigitChar 1 (some 3)))
    (.seq spacesP (.seq (.grp 2 countNounAlt) .wb)))

/-- `/\b(\d{1,3})\b/` -/
def countRE3 : RE :=
  .seq .wb (.seq (.grp 1 (.cls isDigitChar 1 (some 3))) .wb)

/-- `/\b(?:from|in|of)\s+([a-z0-9-_]+)\s+(?:org|organization|account)\b/i` -/
def ownerRE1 : RE :=
  .seq .wb (.seq (alts (w "from") [w "in", w "of"])
    (.seq spacesP (.seq (.grp 1 (.cls ownerChar 1 none))
      (.seq spacesP (.seq (alts (w "org") [w "organization", w "account"]) .wb)))))

/-- `/\b(?:user|owner|org|organization|account)\s*[:\-]?\s*([a-z0-9-_]+)\b/i` -/
def ownerRE2 : RE :=
  .seq .wb (.seq (alts (w "user") [w "owner", w "org", w "organization", w "account"])
    (.seq spacesS (.seq colonDashOpt (.seq spacesS
      (.seq (.grp 1 (.cls ownerChar 1 none)) .wb)))))

/-- `/\b(?:language|lang)\s*[:\-]?\s*([a-zA-Z#+.]+)\b/i` -/
def langRE : RE :=
  .seq .wb (.seq (.alt (w "language") (w "lang"))
    (.seq spacesS (.seq colonDashOpt (.seq spacesS
      (.seq (.grp 1 (.cls langChar 1 none)) .wb)))))

/-- `/\b(?:topic|tag)\s*[:\-]?\s*([a-z0-9-]+)\b/i` -/
def topicRE : RE :=
  .seq .wb (.seq (.alt (w "topic") (w "tag"))
    (.seq spacesS (.seq colonDashOpt (.seq spacesS
      (.seq (.grp 1 (.cls topicChar 1 none)) .wb)))))

/-- `/\b(?:branch|sha)\s*[:\-]?\s*([a-z0-9._\-\/]+)\b/i` -/
def branchRE : RE :=
  .seq .wb (.seq (.alt (w "branch") (w "sha"))
    (.seq spacesS (.seq colonDashOpt (.seq spacesS
      (.seq (.grp 1 (.cls branchChar 1 none)) .wb)))))

/-- `(?:list|show|get|grab|fetch|all)` -/
def verbAlt : RE :=
  alts (w "list") [w "show", w "get", w "grab", w "fetch", w "all"]

/-- `(?:repos?|repositories)` -/
def repoNounAlt : RE :=
  .alt (.seq (w "repo") sOptCI) (w "repositories")

/-- `/\b(?:list|show|get|grab|fetch|all)\b.*\b(?:repos?|repositories)\b.*\b(?:from|of|in)\s+([a-z0-9-_]+)\s+(?:org|organization)\b/i` -/
def orgRepoListRE : RE :=
  .seq .wb (.seq verbAlt (.seq .wb (.seq dotStar
    (.seq .wb (.seq repoNounAlt (.seq .wb (.seq dotStar
      (.seq .wb (.seq (alts (w "from") [w "of", w "in"])
        (.seq spacesP (.seq (.grp 1 (.cls ownerChar 1 none))
          (.seq spacesP (.seq (.alt (w "org") (w "organization")) .wb)))))))))))))

/-- `/\b(?:list|show|get|grab|fetch|all)\b.*\b(?:repos?|repositories)\b.*\b(?:from|of|in|by)\s+(?:user\s+)?([a-z0-9-_]+)\b/i` -/
def userRepoListRE : RE :=
  .seq .wb (.seq verbAlt (.seq .wb (.seq dotStar
    (.seq .wb (.seq repoNounAlt (.seq .wb (.seq dotStar
      (.seq .wb (.seq (alts (w "from") [w "of", w "in", w "by"])
        (.seq spacesP (.seq (.opt (.seq (w "user") spacesP))
          (.seq (.grp 1 (.cls ownerChar 1 none)) .wb))))))))))))

/-- `/\borg\b/i` -/
def orgWordRE : RE :=
  .seq .wb (.seq (w "org") .wb)

/-- `/\b([a-z0-9-_]+)\s+(?:org|organization)\s+repos?\b/i` -/
def simpleOrgListRE : RE :=
  .seq .wb (.seq (.grp 1 (.cls ownerChar 1 none))
    (.seq spacesP (.seq (.alt (w "org") (w "organization"))
      (.seq spacesP (.seq (w "repo") (.seq sOptCI .wb))))))

/-- `/\b([a-z0-9-_]+)\s+repos?\b/i` -/
def simpleUserListRE : RE :=
  .seq .wb (.seq (.grp 1 (.cls ownerChar 1 none))
    (.seq spacesP (.seq (w "repo") (.seq sOptCI .wb))))

/-! ## String helpers mirroring the JS built-ins used by the resolver -/

/-- `String.prototype.trim`. -/
def trimChars (l : List Char) : List Char :=
  ((l.dropWhile isSpaceChar).reverse.dropWhile isSpaceChar).reverse

/-- `String.prototype.toLowerCase` (ASCII fragment). -/
def lowerChars (l : List Char) : List Char :=
  l.map Char.toLower

/-- Value of a non-empty digit string. -/
def digitsToNat (ds : List Char) : Nat :=
  ds.foldl (fun a c => a * 10 + (c.toNat - '0'.toNat)) 0

/-- JS `parseInt(s, 10)`: skip whitespace, optional sign, longest digit
prefix; `none` models `NaN`. -/
def jsParseInt (s : List Char) : Option Int :=
  let t := s.dropWhile isSpaceChar
  match t with
  | '-' :: r =>
    let ds := r.takeWhile isDigitChar
    if ds.isEmpty then none else some (-(digitsToNat ds : Int))
  | '+' :: r =>
    let ds := r.takeWhile isDigitChar
    if ds.isEmpty then none else some ((digitsToNat ds : Int))
  | r =>
    let ds := r.takeWhile isDigitChar
    if ds.isEmpty then none else some ((digitsToNat ds : Int))

/-- `const clamp = (n, min, max) => Math.max(min, Math.min(max, n))`. -/
def clamp (n mn mx : Int) : Int := max mn (min mx n)

/-- Auxiliary for `includesChars`. -/
def isPrefixOfChars : List Char → List Char → Bool
  | [], _ => true
  | _ :: _, [] => false
  | a :: as, b :: bs => a == b && isPrefixOfChars as bs

/-- `String.prototype.includes` (substring test). -/
def includesChars : List Char → List Char → Bool
  | [], needle => isPrefixOfChars needle []
  | c :: t, needle =>
    if isPrefixOfChars needle (c :: t) then true else includesChars t needle

/-! ## The intent resolver (`resolve-github-intent.ts`, main variant) -/

/-- Issue/PR state after `normalizeState`. -/
inductive IssueState where
  | open
  | closed
  | all
deriving DecidableEq, Repr

/-- `normalizeState`: lowercase the word and map
open/opened/active → open, closed/close/merged/resolved → closed,
all/any → all, anything else → undefined. -/
def normalizeState (s : Option (List Char)) : Option IssueState :=
  match s with
  | none => none
  | some cs =>
    let k := lowerChars cs
    if ["open".data, "opened".data, "active".data].contains k then some .open
    else if ["closed".data, "close".data, "merged".data, "resolved".data].contains k then
      some .closed
    else if ["all".data, "any".data].contains k then some .all
    else none

/-- `extractCount`: first of three regexes to match; the code reads
`m[m.length - 1]` — the pattern's last capture group — and returns
`clamp(parseInt(...), 1, 100)` when that parses, `undefined` otherwise. -/
def extractCount (text : List Char) : Option Int :=
  let lastCap : Option (List Char) :=
    match reSearch true countRE1 text with
    | some caps => some ((capGet caps 2).getD [])
    | none =>
      match reSearch true countRE2 text with
      | some caps => some ((capGet caps 2).getD [])
      | none =>
        match reSearch false countRE3 text with
        | some caps => some ((capGet caps 1).getD [])
        | none => none
  match lastCap with
  | none => none
  | some c =>
    match jsParseInt c with
    | none => none
    | some n => some (clamp n 1 100)

/-- `extractOwner`: the org-like phrase regex, then the user-like one. -/
def extractOwner (text : List Char) : Option (List Char) :=
  match reSearch true ownerRE1 text with
  | some caps => capGet caps 1
  | none =>
    match reSearch true ownerRE2 text with
    | some caps => capGet caps 1
    | none => none

/-- `extractFullName`: `owner/repo` token, `repo owner/repo` phrase, or the
special `tamb repo` shortcut. -/
def extractFullName (text : List Char) : Option (List Char × List Char) :=
  match reSearch true slashRE text with
  | some caps => some ((capGet caps 1).getD [], (capGet caps 2).getD [])
  | none =>
    match reSearch true repoSlashRE text with
    | some caps => some ((capGet caps 1).getD [], (capGet caps 2).getD [])
    | none =>
      if reTest true tambRE text then some ("tambo-ai".data, "tambo".data)
      else none

/-- Result of `extractFilters`. -/
structure Filters where
  language : Option (List Char)
  topic : Option (List Char)
  shaOrBranch : Option (List Char)
deriving DecidableEq, Repr

/-- `extractFilters`: language / topic / branch-or-sha tokens. -/
def extractFilters (text : List Char) : Filters :=
  { language := (reSearch true langRE text).bind (fun caps => capGet caps 1)
  , topic := (reSearch true topicRE text).bind (fun caps => capGet caps 1)
  , shaOrBranch := (reSearch true branchRE text).bind (fun caps => capGet caps 1) }

/-- The resolver's lane classification. -/
inductive Lane where
  | issues
  | prs
  | commits
  | repos
deriving DecidableEq, Repr

/-- `extractLane`: issue / PR / commit / repo vocabulary, in that order,
against the lowercased text. -/
def extractLane (text : List Char) : Option Lane :=
  let t := lowerChars text
  if reTest false issuesLaneRE t then some .issues
  else if reTest false prsLaneRE t then some .prs
  else if reTest false commitsLaneRE t then some .commits
  else if reTest false reposLaneRE t then some .repos
  else none

/-- `buildSearchQuery`: join the qualifier parts with spaces, defaulting to
`stars:>0` when everything is blank. -/
def buildSearchQuery (owner language topic extra : Option (List Char)) : List Char :=
  let parts : List (List Char) :=
    (match owner with
     | some o => ["org:".data ++ o ++ " user:".data ++ o]
     | none => [])
    ++ (match language with
        | some l => ["language:".data ++ l]
        | none => [])
    ++ (match topic with
        | some t => ["topic:".data ++ t]
        | none => [])
    ++ (match extra with
        | some e => [e]
        | none => [])
  let joined := trimChars (List.intercalate " ".data parts)
  if joined.isEmpty then "stars:>0".data else joined

/-- `ResolvedIntent`: the resolver's tagged union. Parameters that the
source marks optional (`state?`, `per_page?`, `sha?`) are `Option`s. -/
inductive ResolvedIntent where
  | search_repos (q : String) (per_page : Option Int)
  | get_repo (owner repo : String)
  | list_org_repos (org : String) (per_page : Option Int)
  | list_user_repos (username : String) (per_page : Option Int)
  | list_issues (owner repo : String) (state : Option IssueState) (per_page : Option Int)
  | list_prs (owner repo : String) (state : Option IssueState) (per_page : Option Int)
  | list_commits (owner repo : String) (sha : Option String) (per_page : Option Int)
  | summarize_repo (owner repo : String)
deriving DecidableEq, Repr

/-- The `kind` discriminant of an intent. -/
inductive IntentKind where
  | search_repos
  | get_repo
  | list_org_repos
  | list_user_repos
  | list_issues
  | list_prs
  | list_commits
  | summarize_repo
deriving DecidableEq, Repr

/-- Discriminant of a `ResolvedIntent`. -/
def ResolvedIntent.kind : ResolvedIntent → IntentKind
  | .search_repos _ _ => .search_repos
  | .get_repo _ _ => .get_repo
  | .list_org_repos _ _ => .list_org_repos
  | .list_user_repos _ _ => .list_user_repos
  | .list_issues _ _ _ _ => .list_issues
  | .list_prs _ _ _ _ => .list_prs
  | .list_commits _ _ _ _ => .list_commits
  | .summarize_repo _ _ => .summarize_repo

/-- The `kind` string used by `(intent as any).kind` interpolation. -/
def IntentKind.str : IntentKind → String
  | .search_repos => "search_repos"
  | .get_repo => "get_repo"
  | .list_org_repos => "list_org_repos"
  | .list_user_repos => "list_user_repos"
  | .list_issues => "list_issues"
  | .list_prs => "list_prs"
  | .list_commits => "list_commits"
  | .summarize_repo => "summarize_repo"

/-- `text.match(stateRegex)?.[1]`. -/
def stateCapture (text : List Char) : Option (List Char) :=
  (reSearch true stateRE text).bind (fun caps => capGet caps 1)

/-- Steps 2–3 of `resolveGitHubIntent` (everything after the summarization
check): direct repo reference with lane routing, then org/user listing
detection, then the search fallback. -/
def afterSummarize (text : List Char) (fallback_per_page : Int) : ResolvedIntent :=
  match extractFullName text with
  | some (o, r) =>
    let lane := extractLane text
    let state := normalizeState (stateCapture text)
    let perPage := (extractCount text).getD fallback_per_page
    match lane with
    | some .issues => .list_issues (String.mk o) (String.mk r) state (some perPage)
    | some .prs => .list_prs (String.mk o) (String.mk r) state (some perPage)
    | some .commits =>
      .list_commits (String.mk o) (String.mk r)
        ((extractFilters text).shaOrBranch.map String.mk) (some perPage)
    | _ => .get_repo (String.mk o) (String.mk r)
  | none =>
    let owner := extractOwner text
    let count := (extractCount text).getD fallback_per_page
    let fl := extractFilters text
    let isOrgRepoList := reTest true orgRepoListRE text
    let isUserRepoList := reTest true userRepoListRE text && !(reTest true orgWordRE text)
    let isSimpleOrgList := reTest true simpleOrgListRE text
    let isSimpleUserList := reTest true simpleUserListRE text && !(reTest true orgWordRE text)
    match owner with
    | some ow =>
      if isOrgRepoList || isSimpleOrgList then
        .list_org_repos (String.mk ow) (some count)
      else if isUserRepoList || isSimpleUserList then
        .list_user_repos (String.mk ow) (some count)
      else
        .search_repos
          (String.mk (buildSearchQuery (some ow) fl.language fl.topic (some text)))
          (some count)
    | none =>
      .search_repos
        (String.mk (buildSearchQuery none fl.language fl.topic (some text)))
        (some count)

/-- `resolveGitHubIntent` after the input schema has accepted the input:
trim, try the summarization route, then `afterSummarize`. -/
def resolveGitHubIntentCore (textRaw : String) (fallback_per_page : Int) : ResolvedIntent :=
  let text := trimChars textRaw.data
  if reTest true summarizeRE text then
    match extractFullName text with
    | some (o, r) => .summarize_repo (String.mk o) (String.mk r)
    | none => afterSummarize text fallback_per_page
  else afterSummarize text fallback_per_page

/-- `resolveGitHubIntent` including the zod input schema
(`input: z.string().min(1)`,
`fallback_per_page: z.number().int().min(1).max(100).optional().default(10)`);
a schema violation makes `.parse` throw, modelled as `.error`. -/
def resolveGitHubIntentChecked (input : String) (fallback_per_page : Option Int) :
    Except String ResolvedIntent :=
  if input.length < 1 then
    .error "input: String must contain at least 1 character(s)"
  else
    match fallback_per_page with
    | some fb =>
      if 1 ≤ fb ∧ fb ≤ 100 then .ok (resolveGitHubIntentCore input fb)
      else .error "fallback_per_page: out of range"
    | none => .ok (resolveGitHubIntentCore input 10)

/-! ## The simpler resolver variant (second `resolve-github-intent.ts`) -/

/-- `/\b(\d{1,2})\b/` -/
def v7countRE : RE :=
  .seq .wb (.seq (.grp 1 (.cls isDigitChar 1 (some 2))) .wb)

/-- `/\bfrom\s+([a-z0-9-_]+)(?:\s+org)?\b/i` -/
def v7orgRE : RE :=
  .seq .wb (.seq (w "from") (.seq spacesP
    (.seq (.grp 1 (.cls ownerChar 1 none))
      (.seq (.opt (.seq spacesP (w "org"))) .wb))))

/-- `/\bfrom\s+([a-z0-9-_]+)\/([a-z0-9-_.]+)\b/i` -/
def v7repoRE : RE :=
  .seq .wb (.seq (w "from") (.seq spacesP
    (.seq (.grp 1 (.cls ownerChar 1 none))
      (.seq (w "/") (.seq (.grp 2 (.cls repoChar 1 none)) .wb)))))

/-- The variant's intent type (three kinds only). -/
inductive ResolvedIntentV7 where
  | list_org_repos (org : String) (per_page : Option Int)
  | list_issues (owner repo : String) (state : IssueState) (per_page : Option Int)
  | list_prs (owner repo : String) (state : IssueState) (per_page : Option Int)
deriving DecidableEq, Repr

/-- The variant's `extractCount`: a bare 1–2 digit number clamped to
[1,100], defaulting to 4. -/
def v7extractCount (text : List Char) : Int :=
  match reSearch false v7countRE text with
  | some caps =>
    match jsParseInt ((capGet caps 1).getD []) with
    | some n => clamp n 1 100
    | none => 4
  | none => 4

/-- The variant's `extractOrg`. -/
def v7extractOrg (text : List Char) : Option (List Char) :=
  (reSearch true v7orgRE text).bind (fun caps => capGet caps 1)

/-- The variant's `extractRepo`. -/
def v7extractRepo (text : List Char) : Option (List Char × List Char) :=
  match reSearch true v7repoRE text with
  | some caps => some ((capGet caps 1).getD [], (capGet caps 2).getD [])
  | none => none

/-- The variant resolver's org-listing tail (reached when no repo-specific
request is recognized): org repos, bare org, or the fixed `vercel`
fallback. -/
def v7orgTail (text : List Char) (count : Int) : ResolvedIntentV7 :=
  match v7extractOrg text with
  | some org =>
    if includesChars text "repo".data then .list_org_repos (String.mk org) (some count)
    else .list_org_repos (String.mk org) (some count)
  | none => .list_org_repos "vercel" (some count)

/-- The variant's `resolveGitHubIntent` after schema acceptance: lowercase
trimmed text, repo-specific issues/PR routing, then the org tail. -/
def resolveGitHubIntentCoreV7 (textRaw : String) : ResolvedIntentV7 :=
  let text := lowerChars (trimChars textRaw.data)
  let count := v7extractCount text
  let state : IssueState := .open
  match v7extractRepo text with
  | some (o, r) =>
    if includesChars text "issue".data then
      .list_issues (String.mk o) (String.mk r) state (some count)
    else if includesChars text "pull request".data || includesChars text "pr".data then
      .list_prs (String.mk o) (String.mk r) state (some count)
    else v7orgTail text count
  | none => v7orgTail text count

/-- The variant's resolver including its zod input schema
(`fallback_per_page` defaulting to 4). -/
def resolveGitHubIntentCheckedV7 (input : String) (fallback_per_page : Option Int) :
    Except String ResolvedIntentV7 :=
  if input.length < 1 then
    .error "input: String must contain at least 1 character(s)"
  else
    match fallback_per_page with
    | some fb =>
      if 1 ≤ fb ∧ fb ≤ 100 then .ok (resolveGitHubIntentCoreV7 input)
      else .error "fallback_per_page: out of range"
    | none => .ok (resolveGitHubIntentCoreV7 input)

/-! ## The GitHub adapter (`github-api.ts`)

The adapter is modelled over an abstract network: a `fetch` oracle maps a
structured request (the query parameters `getRepositoryIssues` puts in the
URL) to either an error or a raw page of items. A raw item is abstracted to
the fields the adapter logic inspects: the truthiness of its `pull_request`
field, whether `githubIssueSchema.parse` accepts it, and an identifier. -/

/-- A raw item of the `/repos/{owner}/{repo}/issues` response. -/
structure RawItem where
  /-- Truthiness of the `pull_request` field on the raw payload. -/
  pull_request : Bool
  /-- Whether `githubIssueSchema.parse` succeeds on the item. -/
  valid : Bool
  /-- Distinguishes items. -/
  id : Nat
deriving DecidableEq, Repr

/-- The query parameters of one `/repos/{owner}/{repo}/issues` request. -/
structure IssuesRequest where
  owner : String
  repo : String
  state : String
  per_page : Int
  page : Option Int
  labels : Option String
  assignee : Option String
  /-- The `filter` query parameter (set to `issues` only by the retry). -/
  filter : Option String
deriving DecidableEq, Repr

/-- Adapter errors: `GitHubAPIError` (status `none` for network errors)
and a thrown zod parse error. -/
inductive GHError where
  | api (status : Option Int) (msg : String)
  | zodErr (id : Nat)
deriving DecidableEq, Repr

/-- `githubIssueSchema.parse(item)`: the item itself on success, a thrown
zod error otherwise. -/
def parseIssue (i : RawItem) : Except GHError RawItem :=
  if i.valid then .ok i else .error (.zodErr i.id)

/-- `.map(item => githubIssueSchema.parse(item))`: JS `Array.map` throws at
the first failing element. -/
def parseIssueList : List RawItem → Except GHError (List RawItem)
  | [] => .ok []
  | i :: rest =>
    match parseIssue i with
    | .error e => .error e
    | .ok v =>
      match parseIssueList rest with
      | .error e => .error e
      | .ok vs => .ok (v :: vs)

/-- The message `getRepositoryIssues` (first variant) substitutes for a 403
from its endpoint. -/
def repoIssues403Msg (owner repo : String) : String :=
  "Access denied to " ++ owner ++ "/" ++ repo ++
    " issues. This repository may require \"Issues: read\" permission for your token. Check your fine-grained PAT permissions."

/-- The first variant's outer `catch`: a `GitHubAPIError` with status 403 is
replaced by the permission-specific error; everything else is rethrown. -/
def rewrap403 (owner repo : String) : GHError → GHError
  | .api (some 403) _ => .api (some 403) (repoIssues403Msg owner repo)
  | e => e

/-- The inner `try` of the first variant's retry: fetch with the
`filter=issues` request; a successful non-empty PR-filtered-and-parsed page
is the early return value; a request error, an empty filtered page or a zod
parse error all fall through (the inner `catch` only logs). -/
def v1FallbackRes (fetch : IssuesRequest → Except GHError (List RawItem))
    (req2 : IssuesRequest) : Option (List RawItem) :=
  match fetch req2 with
  | .error _ => none
  | .ok issueData =>
    let filteredIssues := issueData.filter (fun item => !item.pull_request)
    if !filteredIssues.isEmpty then
      match parseIssueList filteredIssues with
      | .ok parsed => some parsed
      | .error _ => none
    else none

/-- `getRepositoryIssues` of the first `github-api.ts` variant: fetch the
page, drop items whose `pull_request` field is truthy, and, when a
non-empty page filters down to nothing, retry once with `filter=issues`
(same `state`/`per_page`/`page`) before returning the (empty) filtered
list. Returns the result together with the list of requests issued. -/
def getRepositoryIssuesV1 (fetch : IssuesRequest → Except GHError (List RawItem))
    (owner repo : String) (state : String) (labels assignee : Option String)
    (per_page page : Int) :
    Except GHError (List RawItem) × List IssuesRequest :=
  let req1 : IssuesRequest :=
    ⟨owner, repo, state, per_page, some page, labels, assignee, none⟩
  match fetch req1 with
  | .error e => (.error (rewrap403 owner repo e), [req1])
  | .ok dataArray =>
    let issuesOnly := dataArray.filter (fun item => !item.pull_request)
    let finalRes : Except GHError (List RawItem) :=
      match parseIssueList issuesOnly with
      | .ok l => .ok l
      | .error e => .error (rewrap403 owner repo e)
    if issuesOnly.isEmpty && !dataArray.isEmpty then
      let req2 : IssuesRequest :=
        ⟨owner, repo, state, per_page, some page, labels, assignee, some "issues"⟩
      match v1FallbackRes fetch req2 with
      | some parsed => (.ok parsed, [req1, req2])
      | none => (finalRes, [req1, req2])
    else (finalRes, [req1])

/-- `getRepositoryIssues` of the second `github-api.ts` variant: one fetch,
filter out pull requests, parse; no retry and no 403 rewrap. -/
def getRepositoryIssuesV2 (fetch : IssuesRequest → Except GHError (List RawItem))
    (owner repo : String) (state : String) (labels assignee : Option String)
    (per_page : Int) :
    Except GHError (List RawItem) × List IssuesRequest :=
  let req : IssuesRequest :=
    ⟨owner, repo, state, per_page, none, labels, assignee, none⟩
  match fetch req with
  | .error e => (.error e, [req])
  | .ok data =>
    let issuesOnly := data.filter (fun item => !item.pull_request)
    (parseIssueList issuesOnly, [req])

/-! ## `request` error construction (both variants) -/

/-- `Response.ok`: status in the 2xx range. -/
def responseOk (status : Int) : Bool :=
  200 ≤ status && status ≤ 299

/-- The text the first variant appends to a 403 message (depends on whether
a token is configured). -/
def hint403 (hasToken : Bool) : String :=
  if !hasToken then
    "\nNo GitHub token provided. Set GITHUB_TOKEN for private repos/orgs."
  else
    "\nToken may lack required permissions for this endpoint. For fine-grained PATs:"
      ++ "\n- Repo issues: \"Issues: read\" permission"
      ++ "\n- Org search: \"search\" permission"
      ++ "\n- Check your PAT permissions at https://github.com/settings/tokens"

/-- The text the first variant appends to a 404 message. -/
def hint404 : String :=
  "\nRepository or organization not found, or access denied. Check the owner/repo name and your token permissions."

/-- The first variant's error message for a non-2xx response: the generic
line, enriched for 403 (token-dependent permission hints) and 404
(not-found/access hint). -/
def buildErrorMessageV1 (status : Int) (statusText errorText : String)
    (hasToken : Bool) : String :=
  let base := "GitHub API error: " ++ toString status ++ " " ++ statusText ++
    " - " ++ errorText
  if status = 403 then base ++ hint403 hasToken
  else if status = 404 then base ++ hint404
  else base

/-- The second variant's error message for a non-2xx response: only the
generic line. -/
def buildErrorMessageV2 (status : Int) (statusText errorText : String) : String :=
  "GitHub API error: " ++ toString status ++ " " ++ statusText ++ " - " ++ errorText

/-- The first variant's `request` outcome for a response with the given
status. -/
def requestV1 (status : Int) (statusText errorText : String) (hasToken : Bool)
    (body : List RawItem) : Except GHError (List RawItem) :=
  if responseOk status then .ok body
  else .error (.api (some status) (buildErrorMessageV1 status statusText errorText hasToken))

/-- The second variant's `request` outcome for a response with the given
status. -/
def requestV2 (status : Int) (statusText errorText : String)
    (body : List RawItem) : Except GHError (List RawItem) :=
  if responseOk status then .ok body
  else .error (.api (some status) (buildErrorMessageV2 status statusText errorText))

/-- A permission-scope hint: the message mentions token permissions or the
`GITHUB_TOKEN` scope advice. -/
def permissionHint (msg : String) : Bool :=
  includesChars msg.data "permission".data || includesChars msg.data "GITHUB_TOKEN".data

/-- A not-found/access hint: the message says the target was not found or
access was denied. -/
def notFoundHint (msg : String) : Bool :=
  includesChars msg.data "not found".data || includesChars msg.data "access denied".data

/-! ## The `resolveGitHubIntent` tool dispatcher (`lib/tambo.ts`) -/

/-- Outcome of the dispatcher: which adapter operation it invoked, or the
error it threw. -/
inductive DispatchResult where
  | called (op : String)
  | threw (msg : String)
deriving DecidableEq, Repr

/-- The `switch (intent.kind)` of the `resolveGitHubIntent` tool: each
handled kind invokes its adapter operation; the `default` branch throws
`Unknown intent kind: <kind>`. -/
def dispatchIntent (intent : ResolvedIntent) : DispatchResult :=
  match intent with
  | .list_org_repos _ _ => .called "getOrganizationRepositories"
  | .list_user_repos _ _ => .called "getUserRepositories"
  | .search_repos _ _ => .called "searchRepositories"
  | .get_repo _ _ => .called "getRepository"
  | .list_issues _ _ _ _ => .called "getRepositoryIssues"
  | .list_prs _ _ _ _ => .called "getRepositoryPRs"
  | .list_commits _ _ _ _ => .called "getRepositoryCommits"
  | .summarize_repo o r =>
    .threw ("Unknown intent kind: " ++ (ResolvedIntent.kind (.summarize_repo o r)).str)

/-! ## Helper lemmas -/

/-- A prefix stays a prefix after extending the list on the right. -/
theorem isPrefixOfChars_append (n s t : List Char)
    (h : isPrefixOfChars n s = true) : isPrefixOfChars n (s ++ t) = true := by
  induction n generalizing s with
  | nil => rfl
  | cons a as ih =>
    cases s with
    | nil => cases h
    | cons b bs =>
      rw [List.cons_append]
      simp only [isPrefixOfChars, Bool.and_eq_true] at h ⊢
      exact ⟨h.1, ih bs h.2⟩

/-- A substring of the right part is a substring of the whole. -/
theorem includesChars_append_left (s t n : List Char)
    (h : includesChars t n = true) : includesChars (s ++ t) n = true := by
  induction s with
  | nil => exact h
  | cons c cs ih =>
    rw [List.cons_append]
    unfold includesChars
    split
    · rfl
    · exact ih

/-- `parseIssueList` returns the very list it validated. -/
theorem parseIssueList_ok (l l' : List RawItem) (h : parseIssueList l = .ok l') :
    l' = l := by
  induction l generalizing l' with
  | nil =>
    simp only [parseIssueList] at h
    cases h
    rfl
  | cons i rest ih =>
    simp only [parseIssueList] at h
    cases hp : parseIssue i with
    | error e => rw [hp] at h; cases h
    | ok v =>
      rw [hp] at h
      cases hr : parseIssueList rest with
      | error e => rw [hr] at h; cases h
      | ok vs =>
        rw [hr] at h
        cases h
        have hv : v = i := by
          unfold parseIssue at hp
          split at hp
          · cases hp; rfl
          · cases hp
        rw [hv, ih vs hr]

/-- Members of the PR-exclusion filter have a falsy `pull_request` field. -/
theorem mem_prFilter (data : List RawItem) (i : RawItem)
    (h : i ∈ data.filter (fun item => !item.pull_request)) :
    i.pull_request = false := by
  have := (List.mem_filter.mp h).2
  simpa using this

/-- On a page of only pull requests the PR-exclusion filter is empty. -/
theorem prFilter_all_pr (data : List RawItem)
    (hall : ∀ i ∈ data, i.pull_request = true) :
    data.filter (fun item => !item.pull_request) = [] := by
  rw [List.filter_eq_nil_iff]
  intro i hi
  simp [hall i hi]

/-- On an all-PR non-empty page, `getRepositoryIssuesV1` issues exactly the
original request followed by the `filter=issues` retry. -/
theorem v1_log_all_pr (fetch : IssuesRequest → Except GHError (List RawItem))
    (owner repo state : String) (labels assignee : Option String)
    (per_page page : Int) (data : List RawItem)
    (hf : fetch ⟨owner, repo, state, per_page, some page, labels, assignee, none⟩ = .ok data)
    (hne : data ≠ [])
    (hall : ∀ i ∈ data, i.pull_request = true) :
    (getRepositoryIssuesV1 fetch owner repo state labels assignee per_page page).2 =
      [⟨owner, repo, state, per_page, some page, labels, assignee, none⟩,
       ⟨owner, repo, state, per_page, some page, labels, assignee, some "issues"⟩] := by
  have hcond : (([] : List RawItem).isEmpty && !data.isEmpty) = true := by
    simp [List.isEmpty_iff, hne]
  unfold getRepositoryIssuesV1
  simp only [hf, prFilter_all_pr data hall, hcond, eq_self_iff_true, if_true]
  cases hfb : v1FallbackRes fetch
      ⟨owner, repo, state, per_page, some page, labels, assignee, some "issues"⟩ with
  | none => simp [hfb]
  | some parsed => simp [hfb]

/-- A successful early return of the retry is a PR-filtered list. -/
theorem v1FallbackRes_some (fetch : IssuesRequest → Except GHError (List RawItem))
    (req2 : IssuesRequest) (parsed : List RawItem)
    (h : v1FallbackRes fetch req2 = some parsed) :
    ∀ i ∈ parsed, i.pull_request = false := by
  intro i hi
  unfold v1FallbackRes at h
  cases hf : fetch req2 with
  | error e => rw [hf] at h; cases h
  | ok issueData =>
    rw [hf] at h
    simp only at h
    split at h
    · split at h
      · rename_i hpl
        cases h
        exact mem_prFilter _ i (parseIssueList_ok _ _ hpl ▸ hi)
      · cases h
    · cases h

/-- Any successful result of the first variant's `getRepositoryIssues` is a
PR-filtered list. -/
theorem v1_ok_excludes_prs (fetch : IssuesRequest → Except GHError (List RawItem))
    (owner repo state : String) (labels assignee : Option String)
    (per_page page : Int) (l : List RawItem)
    (h : (getRepositoryIssuesV1 fetch owner repo state labels assignee per_page page).1
        = .ok l) :
    ∀ i ∈ l, i.pull_request = false := by
  intro i hi
  unfold getRepositoryIssuesV1 at h
  cases hf : fetch ⟨owner, repo, state, per_page, some page, labels, assignee, none⟩ with
  | error e => simp [hf] at h
  | ok dataArray =>
    simp only [hf] at h
    split at h
    · split at h
      · rename_i parsed heq
        cases h
        exact v1FallbackRes_some fetch _ _ heq i hi
      · split at h
        · rename_i hpl
          cases h
          exact mem_prFilter _ i (parseIssueList_ok _ _ hpl ▸ hi)
        · cases h
    · split at h
      · rename_i hpl
        cases h
        exact mem_prFilter _ i (parseIssueList_ok _ _ hpl ▸ hi)
      · cases h

/-- Any successful result of the second variant's `getRepositoryIssues` is a
PR-filtered list. -/
theorem v2_ok_excludes_prs (fetch : IssuesRequest → Except GHError (List RawItem))
    (owner repo state : String) (labels assignee : Option String)
    (per_page : Int) (l : List RawItem)
    (h : (getRepositoryIssuesV2 fetch owner repo state labels assignee per_page).1
        = .ok l) :
    ∀ i ∈ l, i.pull_request = false := by
  intro i hi
  unfold getRepositoryIssuesV2 at h
  cases hf : fetch ⟨owner, repo, state, per_page, none, labels, assignee, none⟩ with
  | error e => simp [hf] at h
  | ok data =>
    simp only [hf] at h
    exact mem_prFilter _ i (parseIssueList_ok _ _ h ▸ hi)

/-! ## The claims -/

/-- C1: for every raw response page (any mixture of items with and without a
`pull_request` field), the list returned by `getRepositoryIssues` (either
variant) contains no item whose raw payload carries a `pull_request`
field. -/
theorem getRepositoryIssues_returns_no_pull_requests
    (fetch : IssuesRequest → Except GHError (List RawItem))
    (owner repo state : String) (labels assignee : Option String)
    (per_page page : Int) (l₁ l₂ : List RawItem)
    (h₁ : (getRepositoryIssuesV1 fetch owner repo state labels assignee per_page page).1
        = .ok l₁)
    (h₂ : (getRepositoryIssuesV2 fetch owner repo state labels assignee per_page).1
        = .ok l₂) :
    (∀ i ∈ l₁, i.pull_request = false) ∧ (∀ i ∈ l₂, i.pull_request = false) :=
  ⟨v1_ok_excludes_prs fetch owner repo state labels assignee per_page page l₁ h₁,
   v2_ok_excludes_prs fetch owner repo state labels assignee per_page l₂ h₂⟩

/-- Witness for C1: a concrete mixed page of one PR and one issue. -/
theorem getRepositoryIssues_returns_no_pull_requests_witness :
    (getRepositoryIssuesV1
        (fun _ => .ok [{pull_request := true, valid := true, id := 0},
                       {pull_request := false, valid := true, id := 1}])
        "tambo-ai" "tambo" "all" none none 30 1).1
      = .ok [{pull_request := false, valid := true, id := 1}] ∧
    (getRepositoryIssuesV2
        (fun _ => .ok [{pull_request := true, valid := true, id := 0},
                       {pull_request := false, valid := true, id := 1}])
        "tambo-ai" "tambo" "all" none none 30).1
      = .ok [{pull_request := false, valid := true, id := 1}] ∧
    ((∀ i ∈ [({pull_request := false, valid := true, id := 1} : RawItem)],
        RawItem.pull_request i = false) ∧
     (∀ i ∈ [({pull_request := false, valid := true, id := 1} : RawItem)],
        RawItem.pull_request i = false)) :=
  ⟨rfl, rfl,
   getRepositoryIssues_returns_no_pull_requests
     (fun _ => .ok [{pull_request := true, valid := true, id := 0},
                    {pull_request := false, valid := true, id := 1}])
     "tambo-ai" "tambo" "all" none none 30 1 _ _ rfl rfl⟩

/-- C2: if the raw page is non-empty and every item on it carries a
`pull_request` marker, `getRepositoryIssues` (first variant) issues a second
request — the retry — before returning. -/
theorem getRepositoryIssues_retries_on_all_pr_page
    (fetch : IssuesRequest → Except GHError (List RawItem))
    (owner repo state : String) (labels assignee : Option String)
    (per_page page : Int) (data : List RawItem)
    (hf : fetch ⟨owner, repo, state, per_page, some page, labels, assignee, none⟩
        = .ok data)
    (hne : data ≠ [])
    (hall : ∀ i ∈ data, i.pull_request = true) :
    2 ≤ (getRepositoryIssuesV1 fetch owner repo state labels assignee per_page page).2.length := by
  rw [v1_log_all_pr fetch owner repo state labels assignee per_page page data hf hne hall]
  exact Nat.le_refl 2

/-- Witness for C2: a concrete page consisting of a single pull request. -/
theorem getRepositoryIssues_retries_on_all_pr_page_witness :
    ((fun (_ : IssuesRequest) =>
        Except.ok (ε := GHError) [({pull_request := true, valid := true, id := 0} : RawItem)])
      ⟨"tambo-ai", "tambo", "all", 30, some 1, none, none, none⟩
      = .ok [{pull_request := true, valid := true, id := 0}]) ∧
    ([({pull_request := true, valid := true, id := 0} : RawItem)] ≠ []) ∧
    (∀ i ∈ [({pull_request := true, valid := true, id := 0} : RawItem)],
      i.pull_request = true) ∧
    2 ≤ (getRepositoryIssuesV1
          (fun _ => .ok [{pull_request := true, valid := true, id := 0}])
          "tambo-ai" "tambo" "all" none none 30 1).2.length :=
  ⟨rfl, by decide, by decide,
   getRepositoryIssues_retries_on_all_pr_page
     (fun _ => .ok [{pull_request := true, valid := true, id := 0}])
     "tambo-ai" "tambo" "all" none none 30 1 _ rfl (by decide) (by decide)⟩

/-- Counterexample for C3: on an all-PR page the retry request carries the
same `per_page` (30) as the original request, which is not strictly
greater. -/
theorem getRepositoryIssues_retry_same_per_page_cex :
    ((getRepositoryIssuesV1
        (fun _ => .ok [{pull_request := true, valid := true, id := 0}])
        "tambo-ai" "tambo" "all" none none 30 1).2.map IssuesRequest.per_page
      = [30, 30]) ∧
    ¬ ((30 : Int) > 30) :=
  ⟨rfl, by decide⟩

/-- C3 (amended): the retry request for an all-pull-request page uses the
same `per_page` and `page` as the original request and adds the
`filter=issues` parameter. -/
theorem getRepositoryIssues_retry_filter_issues
    (fetch : IssuesRequest → Except GHError (List RawItem))
    (owner repo state : String) (labels assignee : Option String)
    (per_page page : Int) (data : List RawItem)
    (hf : fetch ⟨owner, repo, state, per_page, some page, labels, assignee, none⟩
        = .ok data)
    (hne : data ≠ [])
    (hall : ∀ i ∈ data, i.pull_request = true) :
    ((getRepositoryIssuesV1 fetch owner repo state labels assignee per_page page).2)[1]?
      = some ⟨owner, repo, state, per_page, some page, labels, assignee, some "issues"⟩ := by
  rw [v1_log_all_pr fetch owner repo state labels assignee per_page page data hf hne hall]
  rfl

/-- Witness for C3 (amended): the single-PR page again. -/
theorem getRepositoryIssues_retry_filter_issues_witness :
    ((fun (_ : IssuesRequest) =>
        Except.ok (ε := GHError) [({pull_request := true, valid := true, id := 0} : RawItem)])
      ⟨"t", "r", "open", 7, some 2, none, none, none⟩
      = .ok [{pull_request := true, valid := true, id := 0}]) ∧
    ((getRepositoryIssuesV1
        (fun _ => .ok [{pull_request := true, valid := true, id := 0}])
        "t" "r" "open" none none 7 2).2)[1]?
      = some ⟨"t", "r", "open", 7, some 2, none, none, some "issues"⟩ :=
  ⟨rfl,
   getRepositoryIssues_retry_filter_issues
     (fun _ => .ok [{pull_request := true, valid := true, id := 0}])
     "t" "r" "open" none none 7 2 _ rfl (by decide) (by decide)⟩

/-- Helper: the lane of a text whose lowercase form fails the issue-word
test and passes the PR-word test is `prs`. -/
theorem extractLane_prs (text : List Char)
    (hniss : reTest false issuesLaneRE (lowerChars text) = false)
    (hpr : reTest false prsLaneRE (lowerChars text) = true) :
    extractLane text = some .prs := by
  unfold extractLane
  simp [hniss, hpr]

/-- Counterexample for C4: the input `pr issue a/b` contains the repo token
`a/b` and the whole word `pr`, yet the resolver returns `list_issues`
(the issue lane is tested before the PR lane). -/
theorem resolver_pr_word_cex :
    extractFullName (trimChars "pr issue a/b".data) = some ("a".data, "b".data) ∧
    reTest false prsLaneRE (lowerChars (trimChars "pr issue a/b".data)) = true ∧
    (resolveGitHubIntentCore "pr issue a/b" 10).kind = .list_issues ∧
    IntentKind.list_issues ≠ IntentKind.list_prs := by
  refine ⟨by decide, by decide, by decide, by decide⟩

/-- C4 (amended): for every input containing an owner/repo token and
mentioning `pull request`/whole-word `pr`, **and** not mentioning
`issue(s)` and not containing summarization vocabulary, the resolver
returns `list_prs`. -/
theorem resolver_pr_lane_routes_to_list_prs (text : String) (fb : Int)
    (o r : List Char)
    (hnsum : reTest true summarizeRE (trimChars text.data) = false)
    (hfull : extractFullName (trimChars text.data) = some (o, r))
    (hpr : reTest false prsLaneRE (lowerChars (trimChars text.data)) = true)
    (hniss : reTest false issuesLaneRE (lowerChars (trimChars text.data)) = false) :
    (resolveGitHubIntentCore text fb).kind = .list_prs := by
  unfold resolveGitHubIntentCore
  simp only [hnsum, Bool.false_eq_true, if_false]
  unfold afterSummarize
  simp only [hfull, extractLane_prs (trimChars text.data) hniss hpr]
  rfl

/-- Witness for C4 (amended): the input `pr a/b`. -/
theorem resolver_pr_lane_routes_to_list_prs_witness :
    reTest true summarizeRE (trimChars "pr a/b".data) = false ∧
    extractFullName (trimChars "pr a/b".data) = some ("a".data, "b".data) ∧
    reTest false prsLaneRE (lowerChars (trimChars "pr a/b".data)) = true ∧
    reTest false issuesLaneRE (lowerChars (trimChars "pr a/b".data)) = false ∧
    (resolveGitHubIntentCore "pr a/b" 5).kind = .list_prs :=
  ⟨by decide, by decide, by decide, by decide,
   resolver_pr_lane_routes_to_list_prs "pr a/b" 5 "a".data "b".data
     (by decide) (by decide) (by decide) (by decide)⟩

/-- C5: on `show 5 issues from tambo-ai/tambo` the resolver does return a
`list_issues` intent with the right owner and repo, but `per_page` is the
fallback (10), not `clamp(5,1,100) = 5`: `extractCount` matched the
`N (issues|…)` regex and parsed its **last** capture group — the noun
`issues` — so the count is `NaN` and is discarded. -/
theorem resolver_show_issues_count_ignored :
    resolveGitHubIntentCore "show 5 issues from tambo-ai/tambo" 10 =
      .list_issues "tambo-ai" "tambo" none (some 10) ∧
    extractCount "show 5 issues from tambo-ai/tambo".data = none ∧
    some (10 : Int) ≠ some (clamp 5 1 100) := by
  refine ⟨by decide, by decide, by decide⟩

/-- C6: on `tambo-ai org repos` the resolver returns `list_org_repos`, but
with `org = "repos"`: `extractOwner`'s `org <name>` pattern matches the
substring `org repos` and captures `repos` instead of `tambo-ai`. -/
theorem resolver_org_repos_wrong_org :
    resolveGitHubIntentCore "tambo-ai org repos" 10 =
      .list_org_repos "repos" (some 10) ∧
    extractOwner "tambo-ai org repos".data = some "repos".data ∧
    "repos" ≠ "tambo-ai" := by
  refine ⟨by decide, by decide, by decide⟩

/-- C7: `top 10 repos` extracts 10, and `show repos` (no number) falls back
to the caller-supplied value; but `999 issues` extracts nothing (instead of
the claimed clamp to 100), because the `N (issues|…)` regex's last capture
group is the noun and `parseInt` of it is `NaN` — the resolver then uses
the fallback. -/
theorem extractCount_examples :
    extractCount "top 10 repos".data = some 10 ∧
    extractCount "show repos".data = none ∧
    resolveGitHubIntentCore "show repos" 7 = .search_repos "show repos" (some 7) ∧
    extractCount "999 issues".data = none ∧
    resolveGitHubIntentCore "999 issues" 7 = .search_repos "999 issues" (some 7) ∧
    (none : Option Int) ≠ some (clamp 999 1 100) := by
  refine ⟨by decide, by decide, by decide, by decide, by decide, by decide⟩

/-- C8: for every non-empty input string and fallback page size in [1,100],
both resolver variants produce a concrete intent and never throw (the only
throwing code point is the input schema, whose conditions the hypotheses
satisfy). -/
theorem resolver_never_throws (input : String) (fb : Option Int)
    (hne : 1 ≤ input.length)
    (hfb : ∀ n, fb = some n → 1 ≤ n ∧ n ≤ 100) :
    (∃ i, resolveGitHubIntentChecked input fb = .ok i) ∧
    (∃ j, resolveGitHubIntentCheckedV7 input fb = .ok j) := by
  constructor
  · unfold resolveGitHubIntentChecked
    rw [if_neg (by omega)]
    cases fb with
    | none => exact ⟨_, rfl⟩
    | some n =>
      refine ⟨resolveGitHubIntentCore input n, ?_⟩
      simp [hfb n rfl]
  · unfold resolveGitHubIntentCheckedV7
    rw [if_neg (by omega)]
    cases fb with
    | none => exact ⟨_, rfl⟩
    | some n =>
      refine ⟨resolveGitHubIntentCoreV7 input, ?_⟩
      simp [hfb n rfl]

/-- Witness for C8: the input `hello` with fallback 10. -/
theorem resolver_never_throws_witness :
    1 ≤ ("hello" : String).length ∧
    (1 ≤ (10 : Int) ∧ (10 : Int) ≤ 100) ∧
    ((∃ i, resolveGitHubIntentChecked "hello" (some 10) = .ok i) ∧
     (∃ j, resolveGitHubIntentCheckedV7 "hello" (some 10) = .ok j)) :=
  ⟨by decide, by decide,
   resolver_never_throws "hello" (some 10) (by decide)
     (fun n h => by cases h; exact ⟨by decide, by decide⟩)⟩

/-- A permission hint in the appended part survives prefixing. -/
theorem permissionHint_append (a b : String) (h : permissionHint b = true) :
    permissionHint (a ++ b) = true := by
  unfold permissionHint at h ⊢
  have hd : (a ++ b).data = a.data ++ b.data := rfl
  rw [hd]
  rcases Bool.or_eq_true_iff.mp h with h1 | h1
  · rw [includesChars_append_left a.data b.data _ h1]
    rfl
  · rw [includesChars_append_left a.data b.data _ h1]
    simp

/-- A not-found hint in the appended part survives prefixing. -/
theorem notFoundHint_append (a b : String) (h : notFoundHint b = true) :
    notFoundHint (a ++ b) = true := by
  unfold notFoundHint at h ⊢
  have hd : (a ++ b).data = a.data ++ b.data := rfl
  rw [hd]
  rcases Bool.or_eq_true_iff.mp h with h1 | h1
  · rw [includesChars_append_left a.data b.data _ h1]
    rfl
  · rw [includesChars_append_left a.data b.data _ h1]
    simp

/-- Counterexample for C9: the second variant's `request` throws only the
generic message for 403 and 404 — no permission-scope hint and no
not-found hint (here with empty status text and body). -/
theorem request_generic_message_v2_cex :
    requestV2 403 "" "" [] = .error (.api (some 403) "GitHub API error: 403  - ") ∧
    permissionHint "GitHub API error: 403  - " = false ∧
    requestV2 404 "" "" [] = .error (.api (some 404) "GitHub API error: 404  - ") ∧
    notFoundHint "GitHub API error: 404  - " = false := by
  refine ⟨by rfl, by decide, by rfl, by decide⟩

/-- C9 (amended): in the first (enhanced) `request` implementation, every
403 error message carries a permission-scope hint and every 404 error
message carries a not-found/access hint, whatever the response text and
token state; `getRepositoryIssues`' rewrapped 403 message also carries a
permission hint. -/
theorem request_403_404_hints_v1 (statusText errorText : String) (hasToken : Bool)
    (owner repo : String) :
    permissionHint (buildErrorMessageV1 403 statusText errorText hasToken) = true ∧
    notFoundHint (buildErrorMessageV1 404 statusText errorText hasToken) = true ∧
    permissionHint (repoIssues403Msg owner repo) = true := by
  refine ⟨?_, ?_, ?_⟩
  · show permissionHint
      (("GitHub API error: " ++ toString (403 : Int) ++ " " ++ statusText ++ " - " ++ errorText)
        ++ hint403 hasToken) = true
    exact permissionHint_append _ _ (by cases hasToken <;> decide)
  · show notFoundHint
      (("GitHub API error: " ++ toString (404 : Int) ++ " " ++ statusText ++ " - " ++ errorText)
        ++ hint404) = true
    exact notFoundHint_append _ _ (by decide)
  · show permissionHint
      (("Access denied to " ++ owner ++ "/" ++ repo)
        ++ " issues. This repository may require \"Issues: read\" permission for your token. Check your fine-grained PAT permissions.") = true
    exact permissionHint_append _ _ (by decide)

/-- C10: whenever the resolver maps an input to a `summarize_repo` intent,
the `resolveGitHubIntent` tool dispatcher falls through to its `default`
branch and throws `Unknown intent kind: summarize_repo` instead of
invoking an adapter operation. -/
theorem dispatcher_throws_on_summarize (input : String) (fb : Int)
    (h : (resolveGitHubIntentCore input fb).kind = .summarize_repo) :
    dispatchIntent (resolveGitHubIntentCore input fb) =
      .threw "Unknown intent kind: summarize_repo" := by
  cases hi : resolveGitHubIntentCore input fb <;> rw [hi] at h <;>
    simp only [ResolvedIntent.kind] at h <;> try cases h
  rfl

/-- Witness for C10: the input `summarize a/b`. -/
theorem dispatcher_throws_on_summarize_witness :
    (resolveGitHubIntentCore "summarize a/b" 10).kind = .summarize_repo ∧
    dispatchIntent (resolveGitHubIntentCore "summarize a/b" 10) =
      .threw "Unknown intent kind: summarize_repo" :=
  ⟨by decide, dispatcher_throws_on_summarize "summarize a/b" 10 (by decide)⟩

end TamboGitHub
